import Mathlib

/-!
Shallow embedding of the top100tokens pipeline (app/utils/helpers.py,
app/webhooks/handlers.py, app/services/data_parser.py, app/main.py) and
proofs about it.  Python floats standing for clock times, prices and
amounts are modelled as rationals; network interaction is modelled by
passing the observed responses in as explicit inputs; `async` functions
become pure functions of those inputs.  Sleeping is modelled by taking
the post-sleep clock value as an input constrained to be late enough.
-/

/-! ## Webhook delivery (app/utils/helpers.py, app/webhooks/handlers.py) -/

/-- Outcome of one HTTP POST made by `send_webhook`: either a response
with some status code, or a connection-level failure (any exception
raised inside the request block). -/
inductive DeliveryOutcome where
  | status (code : Nat)
  | connError
deriving DecidableEq

/-- `send_webhook` (app/utils/helpers.py): posts the payload and returns
True exactly when the status is 200, 201 or 202; any other status and any
exception is logged and turned into False.  The function never raises. -/
def send_webhook (o : DeliveryOutcome) : Bool :=
  match o with
  | .status code => code == 200 || code == 201 || code == 202
  | .connError => false

/-- Loop body of `retry_operation` (app/utils/helpers.py).  The Python
loop is `for attempt in range(max_retries)`; we recurse on the number of
remaining loop iterations (`remaining = max_retries - attempt`), which is
the standard structural rendering of that loop.  The operation is given
the attempt index; it retries ONLY when the operation raises
(`Except.error`); a raised exception on the last attempt is re-raised.
Before the retry for attempt `i + 1` it sleeps `delay * 2 ^ i` seconds.
Returns the result, the number of times the operation was invoked, and
the list of backoff sleeps performed.  Falling out of the loop (only
possible when `max_retries = 0`) returns Python `None`, modelled as
`Except.ok none`. -/
def retry_operation_go (operation : Nat → Except String α) (max_retries : Nat) (delay : ℚ) :
    Nat → Nat → Except String (Option α) × Nat × List ℚ
  | _, 0 => (Except.ok none, 0, [])
  | attempt, remaining + 1 =>
    match operation attempt with
    | Except.ok v => (Except.ok (some v), 1, [])
    | Except.error e =>
      if attempt = max_retries - 1 then
        (Except.error e, 1, [])
      else
        let r := retry_operation_go operation max_retries delay (attempt + 1) remaining
        (r.1, r.2.1 + 1, delay * 2 ^ attempt :: r.2.2)

/-- `retry_operation(operation, max_retries, delay)` from
app/utils/helpers.py, instrumented with the attempt count and the backoff
sleeps actually performed. -/
def retry_operation (operation : Nat → Except String α) (max_retries : Nat) (delay : ℚ) :
    Except String (Option α) × Nat × List ℚ :=
  retry_operation_go operation max_retries delay 0 max_retries

/-- `WebhookManager._send_to_webhook` (app/webhooks/handlers.py): wraps
one `send_webhook` call per attempt in `retry_operation` with
`max_retries=3, delay=2.0`, and maps any exception that escapes
`retry_operation` to False.  `outcomes` gives the HTTP outcome of each
successive delivery attempt to this URL.  Because `send_webhook` catches
its own exceptions and returns a bool, the wrapped operation never
raises.  A Python `None` result (impossible here since max_retries is 3)
would not be `True` and is modelled as False. -/
def send_to_webhook (outcomes : Nat → DeliveryOutcome) : Bool × Nat × List ℚ :=
  match retry_operation (fun attempt => Except.ok (send_webhook (outcomes attempt))) 3 2 with
  | (Except.ok (some b), n, ws) => (b, n, ws)
  | (Except.ok none, n, ws) => (false, n, ws)
  | (Except.error _, n, ws) => (false, n, ws)

/-- `WebhookManager.broadcast_update` (app/webhooks/handlers.py): with no
registered webhooks it returns `{"sent": 0, "failed": 0}`; otherwise it
delivers the shared payload to every registered URL (each URL having its
own trace of per-attempt outcomes), counts a delivery as sent exactly
when `_send_to_webhook` returned True, and counts everything else as
failed.  Returned pair is (sent, failed). -/
def broadcast_update (webhooks : List String) (outcomes : String → Nat → DeliveryOutcome) :
    Nat × Nat :=
  if webhooks.isEmpty then (0, 0)
  else
    let results := webhooks.map (fun url => (send_to_webhook (outcomes url)).1)
    let successful := (results.filter (fun r => r)).length
    (successful, results.length - successful)

/-- Concrete outcome trace for the C1 scenario: the subscriber at
`https://b.example` always answers HTTP 500; the other two always answer
HTTP 200. -/
def c1_outcomes : String → Nat → DeliveryOutcome :=
  fun url _ =>
    if url = "https://b.example" then DeliveryOutcome.status 500 else DeliveryOutcome.status 200

/-! ## EnhancedRateLimiter (app/services/data_parser.py) -/

/-- The timestamp pruning done by `EnhancedRateLimiter.acquire`: keep the
request times `t` with `now - t < time_window`. -/
def prune_requests (requests : List ℚ) (now time_window : ℚ) : List ℚ :=
  requests.filter (fun t => decide (now - t < time_window))

/-- The sleep `acquire` performs before recording the new request: when,
after pruning, the window already holds `max_requests` timestamps, it
waits `time_window - (now - oldest) + 1` seconds; otherwise it does not
sleep (modelled as a zero wait).  Python's `min` of a list is total on
the nonempty lists reached here; `getD 0` supplies a junk value for the
empty list, which is unreachable when `0 < max_requests`. -/
def acquire_wait (max_requests : Nat) (time_window : ℚ) (requests : List ℚ) (now : ℚ) : ℚ :=
  let pruned := prune_requests requests now time_window
  if max_requests ≤ pruned.length then
    time_window - (now - (pruned.min?).getD 0) + 1
  else 0

/-- `EnhancedRateLimiter.acquire` (app/services/data_parser.py): prune
old timestamps; if the window is still full, compute the wait from the
oldest timestamp, sleep (when the wait is positive), re-read the clock
(`now2`), prune again against the new clock, and append the new clock;
otherwise append `now` directly.  `now` is the clock when the call runs,
`now2` the clock observed after the sleep; `now2` is consulted only on
the sleeping path. -/
def acquire (max_requests : Nat) (time_window : ℚ) (requests : List ℚ) (now now2 : ℚ) :
    List ℚ :=
  let pruned := prune_requests requests now time_window
  if max_requests ≤ pruned.length then
    let oldest := (pruned.min?).getD 0
    let wait_time := time_window - (now - oldest) + 1
    if 0 < wait_time then
      prune_requests pruned now2 time_window ++ [now2]
    else
      pruned ++ [now]
  else
    pruned ++ [now]

/-- A clock observation `(now, now2)` for one `acquire` call is faithful
when the clock read after `asyncio.sleep(w)` is at least `w` seconds
later than the clock read before it (on the non-sleeping path the
required wait is 0, so this only asks that the clock not run backwards
within the call). -/
def clock_ok (max_requests : Nat) (time_window : ℚ) (requests : List ℚ) (now now2 : ℚ) :
    Bool :=
  decide (now + acquire_wait max_requests time_window requests now ≤ now2)

/-- Run a sequence of `acquire` calls, one per clock observation pair. -/
def run_acquires (max_requests : Nat) (time_window : ℚ) :
    List ℚ → List (ℚ × ℚ) → List ℚ
  | requests, [] => requests
  | requests, (now, now2) :: rest =>
    run_acquires max_requests time_window
      (acquire max_requests time_window requests now now2) rest

/-- Every clock observation pair in the trace is faithful for the state
the limiter is in when that call runs. -/
def trace_clock_ok (max_requests : Nat) (time_window : ℚ) :
    List ℚ → List (ℚ × ℚ) → Bool
  | _, [] => true
  | requests, (now, now2) :: rest =>
    clock_ok max_requests time_window requests now now2 &&
    trace_clock_ok max_requests time_window
      (acquire max_requests time_window requests now now2) rest

/-- One HTTP exchange as observed by `make_request_with_retry`: a
response with a status code and (for 200) a parsed JSON body, or an
exception (timeout or any other error), which the method catches. -/
inductive HttpResponse where
  | resp (status : Nat) (body : Nat)
  | exc
deriving DecidableEq

/-- Value returned by `make_request_with_retry`: the parsed JSON body (on
200), the literal error dict (on 401), or Python `None` (every other
exit). -/
inductive RequestOutcome where
  | json (body : Nat)
  | errorDict
  | failed
deriving DecidableEq

/-- `self.retry_delays` of `EnhancedRateLimiter`. -/
def retry_delays : List Nat := [1, 5, 15]

/-- `EnhancedRateLimiter.make_request_with_retry` (app/services/
data_parser.py).  `respOf i` is the outcome of the HTTP exchange at
recursion depth `i` (the call passes `retry_count = i`).  Recursion is on
`remaining = max_retries - retry_count`, which is the structural
rendering of the guard `retry_count < self.max_retries`: the guard holds
exactly when `remaining > 0`.  Status 200 returns the body; 429 sleeps
`retry_delays[retry_count]` and recurses while retries remain, else
returns None; 401 returns the error dict at once; any other status, and
any exception, returns None.  Returns the outcome, the number of HTTP
attempts made, and the sleeps performed between attempts. -/
def make_request_go (respOf : Nat → HttpResponse) (max_retries : Nat) :
    Nat → Nat → RequestOutcome × Nat × List Nat
  | retry_count, remaining =>
    match respOf retry_count with
    | HttpResponse.exc => (RequestOutcome.failed, 1, [])
    | HttpResponse.resp s b =>
      if s = 200 then (RequestOutcome.json b, 1, [])
      else if s = 429 then
        match remaining with
        | 0 => (RequestOutcome.failed, 1, [])
        | r + 1 =>
          let d := retry_delays.getD retry_count 0
          let rec_result := make_request_go respOf max_retries (retry_count + 1) r
          (rec_result.1, rec_result.2.1 + 1, d :: rec_result.2.2)
      else if s = 401 then (RequestOutcome.errorDict, 1, [])
      else (RequestOutcome.failed, 1, [])

/-- Top-level entry of `make_request_with_retry`: Python calls it with
`retry_count = 0`. -/
def make_request_with_retry (respOf : Nat → HttpResponse) (max_retries : Nat) :
    RequestOutcome × Nat × List Nat :=
  make_request_go respOf max_retries 0 max_retries

/-! ## DataParser (app/services/data_parser.py) -/

/-- One entry of the CoinGecko `/coins/markets` response, with the fields
the parser reads.  The numeric fields are `Option` to model JSON null,
which the code replaces by 0 via `... or 0`. -/
structure MarketEntry where
  id : String
  name : String
  symbol : String
  market_cap : Option ℚ
  total_volume : Option ℚ
  current_price : Option ℚ
  price_change_percentage_24h : Option ℚ
deriving DecidableEq, Inhabited

/-- `TokenData` (app/models/schemas.py), with the values the parser
actually stores: the four numeric fields are defaulted to 0 before
construction, so they are plain rationals here. -/
structure TokenData where
  rank : Nat
  name : String
  symbol : String
  mint_address : Option String
  market_cap : ℚ
  volume_24h : ℚ
  price : ℚ
  price_change_24h : ℚ
  solscan_url : String
  coingecko_url : String
  coingecko_id : String
  birdeye_url : String
deriving DecidableEq, Inhabited

/-- Python truthiness of an optional string: `None` and the empty string
are falsy. -/
def addr_truthy : Option String → Bool
  | none => false
  | some s => !s.isEmpty

/-- `Char.toUpper` for the ASCII range, written so that it evaluates by
kernel reduction. -/
def ascii_upper_char (c : Char) : Char :=
  if c.toNat ≥ 97 && c.toNat ≤ 122 then Char.ofNat (c.toNat - 32) else c

/-- Python `str.upper()` (the symbols and names the code upper-cases are
ASCII), mapped over the character list. -/
def py_upper (s : String) : String := ⟨s.data.map ascii_upper_char⟩

/-- `DataParser._generate_solscan_url`. -/
def generate_solscan_url (mint_address : Option String) (symbol : String) : String :=
  if addr_truthy mint_address then "https://solscan.io/token/" ++ mint_address.getD ""
  else "https://solscan.io/token/search?keyword=" ++ symbol

/-- `DataParser._generate_birdeye_url`. -/
def generate_birdeye_url (mint_address : Option String) (symbol : String) : String :=
  if addr_truthy mint_address then
    "https://birdeye.so/token/" ++ mint_address.getD "" ++ "?chain=solana"
  else "https://birdeye.so/search?q=" ++ symbol

/-- Insertion-ordered string dictionary, as Python dicts preserve
insertion order and overwriting a key keeps its position. -/
abbrev StrDict := List (String × Option String)

/-- Python dict assignment `m[k] = v`. -/
def dict_set (m : StrDict) (k : String) (v : Option String) : StrDict :=
  if m.any (fun p => p.1 == k) then m.map (fun p => if p.1 == k then (k, v) else p)
  else m ++ [(k, v)]

/-- Python `m.get(k)`: `None` both for a missing key and for a key whose
stored value is `None`, exactly as the code uses it. -/
def dict_get (m : StrDict) (k : String) : Option String :=
  match m.find? (fun p => p.1 == k) with
  | some p => p.2
  | none => none

/-- `self.known_token_addresses` of `DataParser.__init__`. -/
def known_token_addresses : List (String × String) :=
  [("SOL", "So11111111111111111111111111111111111111112"),
   ("USDC", "EPjFWdd5AufqSSqeM2qN1xzybapC8G4wEGGkZwyTDt1v"),
   ("USDT", "Es9vMFrzaCERmJfrF4H2FYD4KCoNkY11McCe8BenwNYB"),
   ("BONK", "DezXAZ8z7PnrnRJjz3wXBoRgixCa6xjnB7YaB1pPB263"),
   ("JUP", "JUPyiwrYJFskUPiHa7hkeR8VUtAeFoSYbKedZNsDvCN"),
   ("PYTH", "HZ1JovNiVvGrGNiiYvEozEVgZ58xaU3RKwX8eACQBCt3"),
   ("JTO", "jtojtomepa8beP8AuQc6eXt5FriJwfFMwQx2v2f9mCL"),
   ("WIF", "EKpQGSJtjMFqKZ9KQanSqYXRcF8fBopzLHYxdM65zcjm"),
   ("BOME", "ukHH6c7mMyiWCf1b9pnWe25TSpkDDt3H5pQZgZ74J82"),
   ("POPCAT", "7GCBgCHZQfPwjQ1fjNsWQXUoroRc3bRsnqtQDpV3kzoc"),
   ("RAY", "4k3Dyjzvzp8eMZWUXbBCjEvwSkkk59S5iCNLY3QrkX6R"),
   ("ORCA", "orcaEKTdK7LKz57vaAYr9QeNsVEPfiu6QeMU1kektZE"),
   ("MSOL", "mSoLzYCxHdYgdzU16g5QSh3i5K3z3KZK7ytfqcJm7So"),
   ("JITOSOL", "J1toso1uCk3RLmjorhTtrVwY9HJ7X8V9yYac6Y7kGCPn"),
   ("RENDER", "rndrizKT3MK1iimdxRdWabcF7Zg7AR5T4nud4EkHBof")]

/-- The `symbol in self.known_token_addresses` membership test and the
subsequent indexing, fused: Python string equality on dict keys. -/
def known_lookup (symbol : String) : Option String :=
  (known_token_addresses.find? (fun p => p.1 == symbol)).map (fun p => p.2)

/-- One item of a BirdEye `/v3/token/list` response, with the fields the
resolver reads. -/
structure BirdeyeItem where
  address : Option String
  symbol : String
  name : String
deriving DecidableEq

/-- The network-facing inputs of the address-resolution cascade: whether
`BIRDEYE_API_KEY` is configured, and the item lists yielded by the three
search requests.  `none` for a response models a failed request (None
from `make_request_with_retry`), a missing `success` flag, or a malformed
envelope — every case in which the code extracts no items. -/
structure BirdeyeEnv where
  api_key : Bool
  symbol_resp : String → Option (List BirdeyeItem)
  name_resp : String → Option (List BirdeyeItem)
  popular_resp : Option (List BirdeyeItem)

/-- Item selection of `_search_birdeye_by_symbol`: first an exact
case-insensitive symbol match with a truthy address; failing that, the
first item if its address is truthy; else None. -/
def select_symbol_match (items : List BirdeyeItem) (symbol : String) : Option String :=
  match items.find? (fun item => py_upper item.symbol == symbol && addr_truthy item.address) with
  | some item => item.address
  | none =>
    match items with
    | [] => none
    | item0 :: _ => if addr_truthy item0.address then item0.address else none

/-- `DataParser._search_birdeye_by_symbol`: without an API key it returns
None before any request; with a key it issues exactly one search request
and applies the selection to the response items.  The second component
counts the network requests issued. -/
def search_birdeye_by_symbol (env : BirdeyeEnv) (symbol : String) : Option String × Nat :=
  if !env.api_key then (none, 0)
  else
    match env.symbol_resp symbol with
    | none => (none, 1)
    | some items => (select_symbol_match items symbol, 1)

/-- Item selection of `_search_birdeye_by_name`: the first item if its
address is truthy, else None. -/
def select_first_item (items : List BirdeyeItem) : Option String :=
  match items with
  | [] => none
  | item0 :: _ => if addr_truthy item0.address then item0.address else none

/-- `DataParser._search_birdeye_by_name`, instrumented like the symbol
search. -/
def search_birdeye_by_name (env : BirdeyeEnv) (name : String) : Option String × Nat :=
  if !env.api_key then (none, 0)
  else
    match env.name_resp name with
    | none => (none, 1)
    | some items => (select_first_item items, 1)

/-- `DataParser._get_popular_tokens`: without an API key, no request and
an empty list; with a key, one request, yielding the response items (the
code copies address/symbol/name into fresh dicts, which preserves the
fields we model) or an empty list when the envelope is unusable. -/
def get_popular_tokens (env : BirdeyeEnv) : List BirdeyeItem × Nat :=
  if !env.api_key then ([], 0)
  else
    match env.popular_resp with
    | none => ([], 1)
    | some items => (items, 1)

/-- Character-list prefix test, used to model Python's `in` on strings. -/
def chars_start_with : List Char → List Char → Bool
  | [], _ => true
  | _ :: _, [] => false
  | c :: cs, d :: ds => c == d && chars_start_with cs ds

/-- Character-list containment, `needle` occurs inside `hay`. -/
def chars_contain : List Char → List Char → Bool
  | hay, needle =>
    chars_start_with needle hay ||
    match hay with
    | [] => false
    | _ :: rest => chars_contain rest needle

/-- Python `needle in hay` on strings. -/
def str_contains (hay needle : String) : Bool :=
  chars_contain hay.data needle.data

/-- The matching loop of method 4 in `_find_mint_address`: the first
popular token whose upper-cased symbol equals the target symbol, or whose
upper-cased name contains the target symbol, or whose upper-cased symbol
occurs inside the target name, yields its `address` immediately — even
when that address is None. -/
def match_popular_token (tokens : List BirdeyeItem) (symbol name : String) : Option String :=
  match tokens.find? (fun token =>
      py_upper token.symbol == symbol ||
      str_contains (py_upper token.name) symbol ||
      str_contains name (py_upper token.symbol)) with
  | some token => token.address
  | none => none

/-- `DataParser._find_mint_address`: the four-step cascade.  Step 1 is
the static `known_token_addresses` lookup (exact key equality, zero
network cost); step 2 the symbol search; step 3 the name search (only
when `name` is truthy, i.e. nonempty); step 4 the popular-token scan.
Steps short-circuit on a truthy result.  The second component counts the
network requests issued by the call. -/
def find_mint_address (env : BirdeyeEnv) (symbol name : String) : Option String × Nat :=
  match known_lookup symbol with
  | some addr => (some addr, 0)
  | none =>
    let r2 := search_birdeye_by_symbol env symbol
    match r2.1 with
    | some addr => (some addr, r2.2)
    | none =>
      let r3 := if name.isEmpty then (none, 0) else search_birdeye_by_name env name
      match r3.1 with
      | some addr => (some addr, r2.2 + r3.2)
      | none =>
        let r4 := get_popular_tokens env
        (match_popular_token r4.1 symbol name, r2.2 + r3.2 + r4.2)

/-- `DataParser._get_mint_addresses_from_birdeye`: one resolver call per
fetched entry, keyed by the upper-cased symbol; a later entry with the
same symbol overwrites the earlier mapping. -/
def get_mint_addresses_from_birdeye (env : BirdeyeEnv) (market_data : List MarketEntry) :
    StrDict :=
  market_data.foldl
    (fun mapping data =>
      dict_set mapping (py_upper data.symbol)
        (find_mint_address env (py_upper data.symbol) data.name).1)
    []

/-- `DataParser._parse_token_data_with_mint`: builds one `TokenData` from
a market entry, the 1-based rank, and the mint mapping.  On well-typed
entries (the only ones this embedding models) the Python try/except never
fires, so the function is total here. -/
def parse_token_data_with_mint (data : MarketEntry) (rank : Nat)
    (mint_lookup : String → Option String) : TokenData :=
  let symbol := py_upper data.symbol
  let mint_address := mint_lookup symbol
  { rank := rank,
    name := data.name,
    symbol := symbol,
    mint_address := mint_address,
    market_cap := data.market_cap.getD 0,
    volume_24h := data.total_volume.getD 0,
    price := data.current_price.getD 0,
    price_change_24h := data.price_change_percentage_24h.getD 0,
    solscan_url := generate_solscan_url mint_address symbol,
    coingecko_url := "https://www.coingecko.com/en/coins/" ++ data.id,
    coingecko_id := data.id,
    birdeye_url := generate_birdeye_url mint_address symbol }

/-- The `for idx, token_data in enumerate(market_data, 1)` loop of
`get_top_tokens`: parse each entry with its 1-based index.  Every parse
succeeds in this embedding, so every entry contributes one token. -/
def parse_tokens_from (mint_lookup : String → Option String) :
    Nat → List MarketEntry → List TokenData
  | _, [] => []
  | idx, data :: rest =>
    parse_token_data_with_mint data idx mint_lookup ::
      parse_tokens_from mint_lookup (idx + 1) rest

/-- The in-memory cache dict of `DataParser`:
`{'timestamp': ..., 'mint_mapping': ..., 'tokens': ...}`. -/
structure CacheEntry where
  timestamp : ℚ
  mint_mapping : StrDict
  tokens : List TokenData
deriving DecidableEq

/-- The reset value used by `_load_cache` failure and `clear_cache`. -/
def empty_cache : CacheEntry := { timestamp := 0, mint_mapping := [], tokens := [] }

/-- The parser state the claims need: the cache entry plus the configured
TTL (default 3600 seconds). -/
structure ParserState where
  cache : CacheEntry
  cache_ttl : ℚ
deriving DecidableEq

/-- `DataParser._is_cache_valid`: now minus the entry timestamp is
strictly below the TTL. -/
def is_cache_valid (st : ParserState) (now : ℚ) : Bool :=
  decide (now - st.cache.timestamp < st.cache_ttl)

/-- `DataParser.clear_cache`: reset the in-memory cache to the empty
zero-timestamp entry (and best-effort delete the cache file, which has no
in-memory effect). -/
def clear_cache (st : ParserState) : ParserState :=
  { st with cache := empty_cache }

/-- The external observations one `get_top_tokens` call makes: the clock,
the CoinGecko `/coins/markets` response (empty on any fetch failure, as
`get_solana_tokens` maps every failure to `[]`), and the BirdEye-facing
inputs of the resolver. -/
structure FetchEnv where
  now : ℚ
  market_data : List MarketEntry
  birdeye : BirdeyeEnv

/-- The dict comprehension `{token.symbol: token.mint_address for token
in tokens}` of the cache update in `get_top_tokens`. -/
def cache_tokens_mapping (tokens : List TokenData) : StrDict :=
  tokens.foldl (fun mapping token => dict_set mapping token.symbol token.mint_address) []

/-- `DataParser.get_top_tokens(limit, use_cache, force_refresh)`
(app/services/data_parser.py).  On a cache hit (use_cache, valid, not
forced) it returns the cached tokens and leaves the state alone.  The
fetch passes `limit` to the provider as `per_page`; the response list is
`env.market_data` and is NOT truncated by this function.  An empty
response returns an empty list without touching the cache.  Otherwise the
mint mapping is built, every entry parsed with its 1-based rank, and —
when `use_cache` — the whole cache entry replaced by the new snapshot and
persisted (persistence has no in-memory effect).  Returns the token list
and the resulting parser state. -/
def get_top_tokens (st : ParserState) (limit : Nat) (use_cache force_refresh : Bool)
    (env : FetchEnv) : List TokenData × ParserState :=
  if use_cache && is_cache_valid st env.now && !force_refresh then
    (st.cache.tokens, st)
  else
    if env.market_data.isEmpty then ([], st)
    else
      let mint_mapping := get_mint_addresses_from_birdeye env.birdeye env.market_data
      let tokens := parse_tokens_from (dict_get mint_mapping) 1 env.market_data
      if use_cache then
        (tokens,
         { st with
            cache :=
              { timestamp := env.now,
                mint_mapping := cache_tokens_mapping tokens,
                tokens := tokens } })
      else (tokens, st)

/-! ## Refresh scheduler (app/main.py, update_token_data) -/

/-- The loop state of `update_token_data`: the consecutive-failure
counter, the `DataParser` instance state, and the module-global
`token_cache` list. -/
structure SchedulerState where
  consecutive_errors : Nat
  parser : ParserState
  token_cache : List TokenData
deriving DecidableEq

/-- One iteration of the `while True` loop of `update_token_data`: fetch
with `limit=100, force_refresh=True`; on a nonempty result replace the
global token cache and reset the counter (saving to JSON and broadcasting
have no effect on this state); on an empty result increment the counter
and, when it reaches `max_consecutive_errors = 3`, clear the parser cache
and reset the counter.  The boolean reports whether this cycle cleared
the cache. -/
def update_cycle (s : SchedulerState) (env : FetchEnv) : SchedulerState × Bool :=
  let r := get_top_tokens s.parser 100 true true env
  if r.1.isEmpty then
    let c := s.consecutive_errors + 1
    if 3 ≤ c then
      ({ consecutive_errors := 0, parser := clear_cache r.2, token_cache := s.token_cache },
       true)
    else
      ({ consecutive_errors := c, parser := r.2, token_cache := s.token_cache }, false)
  else
    ({ consecutive_errors := 0, parser := r.2, token_cache := r.1 }, false)

/-! ## Concrete inputs used by the claim witnesses and counterexamples -/

/-- A BirdEye environment with no API key configured: every
network-backed resolution step degrades to a miss without a request. -/
def quiet_birdeye : BirdeyeEnv :=
  { api_key := false,
    symbol_resp := fun _ => none,
    name_resp := fun _ => none,
    popular_resp := none }

/-- A parser started with an empty cache and the default TTL of 3600. -/
def fresh_state : ParserState := { cache := empty_cache, cache_ttl := 3600 }

/-- A fetch observation in which the provider yielded no data. -/
def empty_env : FetchEnv := { now := 0, market_data := [], birdeye := quiet_birdeye }

/-- One well-typed market entry whose symbol is outside the static
table, so that (without an API key) its address resolution misses. -/
def sample_entry : MarketEntry :=
  { id := "zzz-coin", name := "Zzz Coin", symbol := "zzz",
    market_cap := some 5, total_volume := some 3, current_price := some 1,
    price_change_percentage_24h := none }

/-- A fetch observation at clock 100 returning one entry. -/
def sample_env : FetchEnv :=
  { now := 100, market_data := [sample_entry], birdeye := quiet_birdeye }

/-- A later fetch observation, at clock 200, used to read the cache back
before its TTL has elapsed. -/
def read_env : FetchEnv := { now := 200, market_data := [], birdeye := quiet_birdeye }

/-- A placeholder cached token used to populate a concrete cache. -/
def sample_token (r : Nat) : TokenData :=
  { rank := r, name := "Tok", symbol := "TOK", mint_address := none,
    market_cap := 0, volume_24h := 0, price := 0, price_change_24h := 0,
    solscan_url := "", coingecko_url := "", coingecko_id := "", birdeye_url := "" }

/-- A parser whose cache is valid at clock 0 and holds two tokens. -/
def c3_cached_state : ParserState :=
  { cache := { timestamp := 0, mint_mapping := [], tokens := [sample_token 1, sample_token 2] },
    cache_ttl := 3600 }

/-- A BirdEye environment with an API key whose symbol search yields one
item carrying an address different from every static-table address. -/
def c4_env : BirdeyeEnv :=
  { api_key := true,
    symbol_resp := fun _ => some [{ address := some "XYZ", symbol := "ZZZ", name := "Zebra" }],
    name_resp := fun _ => none,
    popular_resp := none }

/-! ## Theorems -/

/-- C1: in the broadcast scenario with three subscribers where one
always fails (HTTP 500) and two always succeed, the returned counts are
sent 2 / failed 1 — but the failing subscriber's delivery is attempted
exactly once, with no backoff sleeps: `send_webhook` converts every
failure into `False` instead of raising, and `retry_operation` retries
only on raised exceptions, so the configured 3-attempt / 2s-4s backoff
policy never engages.  This evaluates the code at the claim's failing
input. -/
theorem c1_failing_subscriber_attempted_once :
    broadcast_update ["https://a.example", "https://b.example", "https://c.example"]
        c1_outcomes = (2, 1) ∧
    send_to_webhook (c1_outcomes "https://b.example") = (false, 1, []) :=
  ⟨rfl, rfl⟩

/-- C10: for every call to `broadcast_update`, the returned counts
partition the registered webhook URLs: sent plus failed equals the number
of registered URLs (each subscriber counted exactly once), and both
counts are natural numbers, hence non-negative. -/
theorem c10_broadcast_counts_partition (webhooks : List String)
    (outcomes : String → Nat → DeliveryOutcome) :
    (broadcast_update webhooks outcomes).1 + (broadcast_update webhooks outcomes).2 =
      webhooks.length := by
  unfold broadcast_update
  by_cases h : webhooks.isEmpty
  · have : webhooks = [] := List.isEmpty_iff.mp h
    subst this
    simp
  · have hle := List.length_filter_le (fun r => r)
      (webhooks.map (fun url => (send_to_webhook (outcomes url)).1))
    simp only [h, Bool.false_eq_true, if_false, List.length_map] at hle ⊢
    omega

/-- C5: `make_request_with_retry` (with the configured `max_retries = 3`)
retries only on HTTP 429, sleeping 1s, 5s and 15s before the three
successive retries and returning None after they are exhausted; a 401
stops immediately with the error dict and no retry; any other non-2xx
status fails at once with no retry; a 200 returns the body at once. -/
theorem c5_retry_only_on_rate_limit (respOf : Nat → HttpResponse) :
    ((∀ i, ∃ b, respOf i = HttpResponse.resp 429 b) →
      make_request_with_retry respOf 3 = (RequestOutcome.failed, 4, [1, 5, 15])) ∧
    (∀ b, respOf 0 = HttpResponse.resp 401 b →
      make_request_with_retry respOf 3 = (RequestOutcome.errorDict, 1, [])) ∧
    (∀ s b, respOf 0 = HttpResponse.resp s b → s ≠ 200 → s ≠ 429 → s ≠ 401 →
      make_request_with_retry respOf 3 = (RequestOutcome.failed, 1, [])) ∧
    (∀ b, respOf 0 = HttpResponse.resp 200 b →
      make_request_with_retry respOf 3 = (RequestOutcome.json b, 1, [])) := by
  refine ⟨?_, ?_, ?_, ?_⟩
  · intro h
    obtain ⟨b0, h0⟩ := h 0
    obtain ⟨b1, h1⟩ := h 1
    obtain ⟨b2, h2⟩ := h 2
    obtain ⟨b3, h3⟩ := h 3
    simp [make_request_with_retry, make_request_go, h0, h1, h2, h3, retry_delays]
  · intro b h0
    simp [make_request_with_retry, make_request_go, h0]
  · intro s b h0 hs200 hs429 hs401
    simp [make_request_with_retry, make_request_go, h0, hs200, hs429, hs401]
  · intro b h0
    simp [make_request_with_retry, make_request_go, h0]

/-- Witness for C5: under a permanent 429 the call makes four HTTP
attempts, sleeps 1s, 5s, 15s between them, and returns None. -/
theorem c5_retry_only_on_rate_limit_witness :
    make_request_with_retry (fun _ => HttpResponse.resp 429 0) 3 =
      (RequestOutcome.failed, 4, [1, 5, 15]) :=
  (c5_retry_only_on_rate_limit (fun _ => HttpResponse.resp 429 0)).1 (fun _ => ⟨0, rfl⟩)

/-- The left fold of `min` over a list lands in the list extended by the
start value (Python's `min` returns one of its arguments). -/
theorem foldl_min_mem (a : ℚ) (l : List ℚ) : l.foldl min a ∈ a :: l := by
  induction l generalizing a with
  | nil => simp
  | cons b bs ih =>
    rw [List.foldl_cons]
    rcases List.mem_cons.mp (ih (min a b)) with h' | h'
    · rw [h']
      rcases min_choice a b with hm | hm <;> rw [hm] <;> simp
    · exact List.mem_cons_of_mem _ (List.mem_cons_of_mem _ h')

/-- Python's `min` of a nonempty list is a member of the list. -/
theorem min_getD_mem (l : List ℚ) (h : l ≠ []) : l.min?.getD 0 ∈ l := by
  match l with
  | a :: as =>
    have hdef : (a :: as).min? = some (as.foldl min a) := rfl
    rw [hdef]
    simpa using foldl_min_mem a as

/-- One faithful `acquire` call never leaves more than `max_requests`
recorded timestamps: if the pruned window is full, the mandated sleep
pushes the clock past the oldest timestamp's window, so the second prune
drops at least that timestamp before the new one is appended. -/
theorem acquire_length_le (N : Nat) (W : ℚ) (requests : List ℚ) (now now2 : ℚ)
    (hN : 0 < N) (hlen : requests.length ≤ N)
    (hclk : clock_ok N W requests now now2 = true) :
    (acquire N W requests now now2).length ≤ N := by
  have hple : (prune_requests requests now W).length ≤ requests.length :=
    List.length_filter_le _ _
  simp only [acquire]
  by_cases hfull : N ≤ (prune_requests requests now W).length
  · have hne : prune_requests requests now W ≠ [] := by
      intro he
      rw [he] at hfull
      simp only [List.length_nil] at hfull
      omega
    have hmem : (prune_requests requests now W).min?.getD 0 ∈ prune_requests requests now W :=
      min_getD_mem _ hne
    have hmlt : now - (prune_requests requests now W).min?.getD 0 < W := by
      have h := List.mem_filter.mp hmem
      exact of_decide_eq_true h.2
    have hwpos : 0 < W - (now - (prune_requests requests now W).min?.getD 0) + 1 := by
      linarith
    unfold clock_ok at hclk
    have hc := of_decide_eq_true hclk
    simp only [acquire_wait] at hc
    rw [if_pos hfull] at hc
    rw [if_pos hfull, if_pos hwpos]
    have hfail : ¬ ((fun t => decide (now2 - t < W)) ((prune_requests requests now W).min?.getD 0) = true) := by
      simp only [decide_eq_true_eq]
      linarith
    have hlt : (prune_requests (prune_requests requests now W) now2 W).length <
        (prune_requests requests now W).length := by
      unfold prune_requests
      exact List.length_filter_lt_length_iff_exists.mpr ⟨_, hmem, by simpa using hfail⟩
    rw [List.length_append, List.length_singleton]
    omega
  · rw [if_neg hfull, List.length_append, List.length_singleton]
    omega

/-- Along any faithfully clocked trace of `acquire` calls, the recorded
timestamp list never grows beyond `max_requests` entries. -/
theorem run_acquires_length_le (N : Nat) (W : ℚ) (hN : 0 < N) :
    ∀ (trace : List (ℚ × ℚ)) (requests : List ℚ),
      requests.length ≤ N →
      trace_clock_ok N W requests trace = true →
      (run_acquires N W requests trace).length ≤ N := by
  intro trace
  induction trace with
  | nil =>
    intro requests h _
    simpa [run_acquires] using h
  | cons p rest ih =>
    intro requests hlen htr
    obtain ⟨now, now2⟩ := p
    simp only [trace_clock_ok, Bool.and_eq_true] at htr
    simp only [run_acquires]
    exact ih _ (acquire_length_le N W requests now now2 hN hlen htr.1) htr.2

/-- C2: for every sequence of `acquire` calls on `EnhancedRateLimiter`
(with `max_requests = N`, `time_window = W`) whose clock observations are
faithful (each post-sleep clock is at least the computed wait later),
after every call completes the recorded request timestamps contain at
most `N` timestamps inside any rolling `W`-second window `[a, a + W)` —
the trace being arbitrary, this covers the state after every prefix of
calls. -/
theorem c2_window_never_exceeds_max (N : Nat) (W : ℚ) (trace : List (ℚ × ℚ)) (a : ℚ)
    (hN : 0 < N) (htr : trace_clock_ok N W [] trace = true) :
    ((run_acquires N W [] trace).filter (fun t => decide (a ≤ t ∧ t < a + W))).length ≤ N :=
  le_trans (List.length_filter_le _ _)
    (run_acquires_length_le N W hN trace [] (by simp) htr)

/-- Witness for C2: a two-call trace on a limiter with `max_requests = 1`
and `time_window = 60`, whose second call sleeps; no rolling 60-second
window ever holds more than one timestamp. -/
theorem c2_window_never_exceeds_max_witness :
    0 < 1 ∧
    trace_clock_ok 1 60 [] [((0 : ℚ), 0), (5, 66)] = true ∧
    ((run_acquires 1 60 [] [((0 : ℚ), 0), (5, 66)]).filter
        (fun t => decide ((0 : ℚ) ≤ t ∧ t < 0 + 60))).length ≤ 1 :=
  ⟨Nat.one_pos,
    by norm_num [trace_clock_ok, clock_ok, acquire, acquire_wait, prune_requests,
      List.min?, List.filter],
    c2_window_never_exceeds_max 1 60 [((0 : ℚ), 0), (5, 66)] 0 Nat.one_pos
      (by norm_num [trace_clock_ok, clock_ok, acquire, acquire_wait, prune_requests,
        List.min?, List.filter])⟩

/-- The enumerate-and-parse loop yields one token per market entry. -/
theorem parse_tokens_from_length (f : String → Option String) :
    ∀ (idx : Nat) (l : List MarketEntry), (parse_tokens_from f idx l).length = l.length := by
  intro idx l
  induction l generalizing idx with
  | nil => rfl
  | cons e rest ih => simp [parse_tokens_from, ih]

/-- The ranks produced by the enumerate-and-parse loop starting at index
`idx` are exactly `idx, idx+1, ...`. -/
theorem parse_tokens_from_map_rank (f : String → Option String) :
    ∀ (idx : Nat) (l : List MarketEntry),
      (parse_tokens_from f idx l).map TokenData.rank = List.range' idx l.length := by
  intro idx l
  induction l generalizing idx with
  | nil => rfl
  | cons e rest ih =>
    simp [parse_tokens_from, parse_token_data_with_mint, List.range'_succ, ih]

/-- C3 (amended): for every requested token count limit in 1..200, when
the call actually fetches (the cache-hit path is bypassed because the
cache is invalid, caching is off, or the refresh is forced) and the
provider honours `per_page` by returning at most `limit` entries, the
returned token list has length at most `limit` and its rank fields are
the contiguous ascending sequence 1, 2, ..., length.  (On a cache hit the
code returns the cached list whole, regardless of `limit` — see the
counterexample.) -/
theorem c3_fresh_fetch_respects_limit (st : ParserState) (limit : Nat)
    (use_cache force_refresh : Bool) (env : FetchEnv)
    (hlo : 1 ≤ limit) (hhi : limit ≤ 200)
    (hbp : (use_cache && is_cache_valid st env.now && !force_refresh) = false)
    (hresp : env.market_data.length ≤ limit) :
    (get_top_tokens st limit use_cache force_refresh env).1.length ≤ limit ∧
    (get_top_tokens st limit use_cache force_refresh env).1.map TokenData.rank =
      List.range' 1 (get_top_tokens st limit use_cache force_refresh env).1.length := by
  unfold get_top_tokens
  rw [hbp]
  by_cases hmt : env.market_data.isEmpty
  · simp [hmt]
  · cases use_cache <;>
      simp [hmt, Bool.false_eq_true, parse_tokens_from_length, parse_tokens_from_map_rank,
        hresp]

/-- Witness for C3: a fresh forced fetch of one entry under limit 1
returns one token ranked 1. -/
theorem c3_fresh_fetch_respects_limit_witness :
    (get_top_tokens fresh_state 1 true true sample_env).1.length ≤ 1 ∧
    (get_top_tokens fresh_state 1 true true sample_env).1.map TokenData.rank =
      List.range' 1 (get_top_tokens fresh_state 1 true true sample_env).1.length :=
  c3_fresh_fetch_respects_limit fresh_state 1 true true sample_env (le_refl 1)
    (by norm_num) (by simp) (le_refl 1)

/-- Counterexample for C3 as stated: with a valid cache holding two
tokens, a call requesting `limit = 1` (which is in 1..200) returns both
cached tokens — the returned list exceeds the requested count. -/
theorem c3_cache_hit_exceeds_limit :
    1 ≤ 1 ∧ 1 ≤ 200 ∧
    (get_top_tokens c3_cached_state 1 true false empty_env).1.length = 2 ∧
    ¬ ((get_top_tokens c3_cached_state 1 true false empty_env).1.length ≤ 1) := by
  have hv : is_cache_valid c3_cached_state empty_env.now = true := by
    norm_num [is_cache_valid, c3_cached_state, empty_env]
  have hres : (get_top_tokens c3_cached_state 1 true false empty_env).1 =
      [sample_token 1, sample_token 2] := by
    simp only [get_top_tokens, hv, Bool.true_and, Bool.not_false, Bool.and_true]
    rfl
  rw [hres]
  norm_num

/-- C4 (amended): for every symbol that exactly equals a key of the
static known-address table — which is how the running pipeline reaches
the table, since `_get_mint_addresses_from_birdeye` upper-cases every
symbol before the lookup and all table keys are upper-case, making the
end-to-end match case-insensitive — `_find_mint_address` returns that
entry's address and performs no network-backed lookup (zero secondary-
provider requests).  (The function itself compares case-sensitively: fed
a lower-case symbol directly it misses the table — see the
counterexample.) -/
theorem c4_static_table_short_circuit (env : BirdeyeEnv) (symbol name addr : String)
    (h : known_lookup symbol = some addr) :
    find_mint_address env symbol name = (some addr, 0) := by
  unfold find_mint_address
  rw [h]

/-- Witness for C4: the upper-cased symbol SOL hits the static table and
resolves with zero network requests, even with an API key configured. -/
theorem c4_static_table_short_circuit_witness :
    known_lookup "SOL" = some "So11111111111111111111111111111111111111112" ∧
    find_mint_address c4_env "SOL" "Solana" =
      (some "So11111111111111111111111111111111111111112", 0) :=
  ⟨by decide,
    c4_static_table_short_circuit c4_env "SOL" "Solana"
      "So11111111111111111111111111111111111111112" (by decide)⟩

/-- Counterexample for C4 as stated: the symbol `sol` matches the table
entry SOL under case-insensitive comparison, yet `_find_mint_address`
(whose table lookup is case-sensitive) misses the table, issues a
network-backed symbol search, and returns that search's address instead
of the static one. -/
theorem c4_lowercase_symbol_misses_table :
    (known_token_addresses.any (fun p => p.1 == py_upper "sol")) = true ∧
    find_mint_address c4_env "sol" "Solana" = (some "XYZ", 1) ∧
    ("XYZ" : String) ≠ "So11111111111111111111111111111111111111112" := by
  refine ⟨by decide, ?_, by decide⟩
  decide

/-- When the provider yields no data, a forced fetch returns the empty
list and leaves the parser state untouched. -/
theorem get_top_tokens_empty_fetch (st : ParserState) (limit : Nat) (env : FetchEnv)
    (h : env.market_data = []) :
    get_top_tokens st limit true true env = ([], st) := by
  simp [get_top_tokens, h]

/-- C6: starting from a consecutive-failure counter of zero, three
consecutive scheduler cycles whose fetch result is empty cause exactly
one cache clear — none in the first two cycles, one in the third —
together with a reset of the counter to zero, and the state the fourth
cycle starts from has a cleared (empty, zero-timestamp) parser cache. -/
theorem c6_three_empty_fetches_single_clear (p : ParserState) (g : List TokenData)
    (e1 e2 e3 : FetchEnv)
    (h1 : e1.market_data = []) (h2 : e2.market_data = []) (h3 : e3.market_data = []) :
    (update_cycle { consecutive_errors := 0, parser := p, token_cache := g } e1).2 = false ∧
    (update_cycle
      (update_cycle { consecutive_errors := 0, parser := p, token_cache := g } e1).1 e2).2 =
      false ∧
    (update_cycle
      (update_cycle
        (update_cycle { consecutive_errors := 0, parser := p, token_cache := g } e1).1
        e2).1 e3).2 = true ∧
    (update_cycle
      (update_cycle
        (update_cycle { consecutive_errors := 0, parser := p, token_cache := g } e1).1
        e2).1 e3).1.consecutive_errors = 0 ∧
    (update_cycle
      (update_cycle
        (update_cycle { consecutive_errors := 0, parser := p, token_cache := g } e1).1
        e2).1 e3).1.parser.cache = empty_cache := by
  have k1 : update_cycle { consecutive_errors := 0, parser := p, token_cache := g } e1 =
      ({ consecutive_errors := 1, parser := p, token_cache := g }, false) := by
    simp [update_cycle, get_top_tokens_empty_fetch p 100 e1 h1]
  have k2 : update_cycle { consecutive_errors := 1, parser := p, token_cache := g } e2 =
      ({ consecutive_errors := 2, parser := p, token_cache := g }, false) := by
    simp [update_cycle, get_top_tokens_empty_fetch p 100 e2 h2]
  have k3 : update_cycle { consecutive_errors := 2, parser := p, token_cache := g } e3 =
      ({ consecutive_errors := 0, parser := clear_cache p, token_cache := g }, true) := by
    simp [update_cycle, get_top_tokens_empty_fetch p 100 e3 h3]
  rw [k1]
  simp only
  rw [k2]
  simp only
  rw [k3]
  simp [clear_cache]

/-- Witness for C6: three empty-fetch cycles from a fresh parser clear
the cache exactly in the third cycle. -/
theorem c6_three_empty_fetches_single_clear_witness :
    empty_env.market_data = [] ∧
    (update_cycle
      (update_cycle
        (update_cycle { consecutive_errors := 0, parser := fresh_state, token_cache := [] }
          empty_env).1 empty_env).1 empty_env).2 = true ∧
    (update_cycle
      (update_cycle
        (update_cycle { consecutive_errors := 0, parser := fresh_state, token_cache := [] }
          empty_env).1 empty_env).1 empty_env).1.parser.cache = empty_cache := by
  have h := c6_three_empty_fetches_single_clear fresh_state [] empty_env empty_env empty_env
    rfl rfl rfl
  exact ⟨rfl, h.2.2.1, h.2.2.2.2⟩

/-- On a cache hit, `get_top_tokens` returns the cached tokens and the
unchanged state. -/
theorem get_top_tokens_cache_hit (st : ParserState) (limit : Nat)
    (use_cache force_refresh : Bool) (env : FetchEnv)
    (hcond : (use_cache && is_cache_valid st env.now && !force_refresh) = true) :
    get_top_tokens st limit use_cache force_refresh env = (st.cache.tokens, st) := by
  unfold get_top_tokens
  rw [hcond]
  simp

/-- On the fetching path with an empty provider response,
`get_top_tokens` returns the empty list and the unchanged state. -/
theorem get_top_tokens_no_data (st : ParserState) (limit : Nat)
    (use_cache force_refresh : Bool) (env : FetchEnv)
    (hcond : (use_cache && is_cache_valid st env.now && !force_refresh) = false)
    (hmd : env.market_data = []) :
    get_top_tokens st limit use_cache force_refresh env = ([], st) := by
  unfold get_top_tokens
  rw [hcond, hmd]
  simp

/-- On the fetching path with data and `use_cache = true`,
`get_top_tokens` returns the parsed tokens and replaces the whole cache
entry with the new snapshot. -/
theorem get_top_tokens_write (st : ParserState) (limit : Nat) (force_refresh : Bool)
    (env : FetchEnv)
    (hcond : (true && is_cache_valid st env.now && !force_refresh) = false)
    (hmt : env.market_data.isEmpty = false) :
    get_top_tokens st limit true force_refresh env =
      (parse_tokens_from
          (dict_get (get_mint_addresses_from_birdeye env.birdeye env.market_data)) 1
          env.market_data,
       { st with
          cache :=
            { timestamp := env.now,
              mint_mapping :=
                cache_tokens_mapping
                  (parse_tokens_from
                    (dict_get (get_mint_addresses_from_birdeye env.birdeye env.market_data))
                    1 env.market_data),
              tokens :=
                parse_tokens_from
                  (dict_get (get_mint_addresses_from_birdeye env.birdeye env.market_data)) 1
                  env.market_data } }) := by
  unfold get_top_tokens
  rw [hcond, hmt]
  simp

/-- On the fetching path with data and `use_cache = false`,
`get_top_tokens` returns the parsed tokens and leaves the state alone. -/
theorem get_top_tokens_nocache (st : ParserState) (limit : Nat) (force_refresh : Bool)
    (env : FetchEnv) (hmt : env.market_data.isEmpty = false) :
    get_top_tokens st limit false force_refresh env =
      (parse_tokens_from
          (dict_get (get_mint_addresses_from_birdeye env.birdeye env.market_data)) 1
          env.market_data, st) := by
  unfold get_top_tokens
  rw [hmt]
  simp

/-- C7: each `get_top_tokens` call either leaves the previous cache entry
entirely unchanged or replaces it with a complete new snapshot — the
timestamp, the symbol-to-address mapping and the token list written
together from the call's own result; and when the market-data fetch
yields no data (on the fetching path), the call returns an empty list and
leaves the parser state, cache included, untouched. -/
theorem c7_cache_replaced_whole_or_untouched (st : ParserState) (limit : Nat)
    (use_cache force_refresh : Bool) (env : FetchEnv) :
    ((get_top_tokens st limit use_cache force_refresh env).2.cache = st.cache ∨
     (get_top_tokens st limit use_cache force_refresh env).2.cache =
       { timestamp := env.now,
         mint_mapping :=
           cache_tokens_mapping (get_top_tokens st limit use_cache force_refresh env).1,
         tokens := (get_top_tokens st limit use_cache force_refresh env).1 }) ∧
    ((use_cache && is_cache_valid st env.now && !force_refresh) = false →
      env.market_data = [] →
      get_top_tokens st limit use_cache force_refresh env = ([], st)) := by
  cases hcond : use_cache && is_cache_valid st env.now && !force_refresh with
  | true =>
    rw [get_top_tokens_cache_hit st limit use_cache force_refresh env hcond]
    refine ⟨Or.inl rfl, ?_⟩
    intro habs
    exact Bool.noConfusion habs
  | false =>
    cases hmd : env.market_data with
    | nil =>
      rw [get_top_tokens_no_data st limit use_cache force_refresh env hcond hmd]
      exact ⟨Or.inl rfl, fun _ _ => rfl⟩
    | cons e es =>
      have hmt : env.market_data.isEmpty = false := by rw [hmd]; rfl
      constructor
      · cases use_cache with
        | false =>
          rw [get_top_tokens_nocache st limit force_refresh env hmt]
          exact Or.inl rfl
        | true =>
          rw [get_top_tokens_write st limit force_refresh env hcond hmt]
          exact Or.inr rfl
      · intro _ hmd2
        exact absurd hmd2 (List.cons_ne_nil e es)

/-- Witness for C7: with caching off and an empty fetch, the call returns
the empty list and leaves the state untouched. -/
theorem c7_cache_replaced_whole_or_untouched_witness :
    get_top_tokens fresh_state 5 false false empty_env = ([], fresh_state) :=
  (c7_cache_replaced_whole_or_untouched fresh_state 5 false false empty_env).2 rfl rfl

/-- C8: the cache validity check returns true iff the current time minus
the cache timestamp is strictly below the TTL; consequently a snapshot
written by a fetching `get_top_tokens` call is returned unchanged (same
tokens, untouched state) by a cached read issued before the TTL elapses,
and once the TTL has elapsed the validity check on the written state
returns false. -/
theorem c8_cache_validity_roundtrip (s st : ParserState) (tQ : ℚ) (limit limit2 : Nat)
    (force_refresh : Bool) (env env2 : FetchEnv) (t3 : ℚ)
    (hbp : is_cache_valid st env.now = false ∨ force_refresh = true)
    (hne : env.market_data ≠ [])
    (hlt : env2.now - env.now < st.cache_ttl)
    (hge : st.cache_ttl ≤ t3 - env.now) :
    (is_cache_valid s tQ = true ↔ tQ - s.cache.timestamp < s.cache_ttl) ∧
    (get_top_tokens (get_top_tokens st limit true force_refresh env).2 limit2 true false
        env2).1 = (get_top_tokens st limit true force_refresh env).1 ∧
    (get_top_tokens (get_top_tokens st limit true force_refresh env).2 limit2 true false
        env2).2 = (get_top_tokens st limit true force_refresh env).2 ∧
    is_cache_valid (get_top_tokens st limit true force_refresh env).2 t3 = false := by
  have hcond : (true && is_cache_valid st env.now && !force_refresh) = false := by
    rcases hbp with h | h <;> simp [h]
  have hmt : env.market_data.isEmpty = false := by
    cases hm : env.market_data with
    | nil => exact absurd hm hne
    | cons a l => rfl
  have hres := get_top_tokens_write st limit force_refresh env hcond hmt
  have hv : (true && is_cache_valid (get_top_tokens st limit true force_refresh env).2
      env2.now && !false) = true := by
    rw [hres]
    simp [is_cache_valid]
    exact hlt
  have hhit := get_top_tokens_cache_hit (get_top_tokens st limit true force_refresh env).2
    limit2 true false env2 hv
  refine ⟨?_, ?_, ?_, ?_⟩
  · simp [is_cache_valid]
  · rw [hhit, hres]
  · rw [hhit]
  · rw [hres]
    simp [is_cache_valid]
    linarith

/-- Witness for C8: a forced fetch at clock 100 writes the cache; a
cached read at clock 200 (within the 3600s TTL) returns the identical
snapshot, and at clock 4000 the validity check fails. -/
theorem c8_cache_validity_roundtrip_witness :
    (get_top_tokens (get_top_tokens fresh_state 100 true true sample_env).2 100 true false
        read_env).1 = (get_top_tokens fresh_state 100 true true sample_env).1 ∧
    is_cache_valid (get_top_tokens fresh_state 100 true true sample_env).2 4000 = false := by
  have h := c8_cache_validity_roundtrip fresh_state fresh_state 0 100 100 true sample_env
    read_env 4000 (Or.inr rfl) (by simp [sample_env])
    (by norm_num [read_env, sample_env, fresh_state])
    (by norm_num [sample_env, fresh_state])
  exact ⟨h.2.1, h.2.2.2⟩

/-- Indexing into the enumerate-and-parse result: the token at position
`i` is the parse of the entry at position `i` with rank `idx + i`. -/
theorem parse_tokens_from_getD (f : String → Option String) :
    ∀ (idx i : Nat) (l : List MarketEntry), i < l.length →
      (parse_tokens_from f idx l).getD i default =
        parse_token_data_with_mint (l.getD i default) (idx + i) f := by
  intro idx i l
  induction l generalizing idx i with
  | nil =>
    intro h
    simp at h
  | cons e rest ih =>
    intro h
    cases i with
    | zero => simp [parse_tokens_from]
    | succ j =>
      have hj : j < rest.length := by simpa using h
      simp only [parse_tokens_from, List.getD_cons_succ]
      rw [ih (idx + 1) j hj]
      congr 1
      omega

/-- C9: on the fetching path, every fetched market entry yields exactly
one token record (the snapshot length equals the fetch length), and an
entry whose address resolution finds no mint address still appears at its
position, carrying its upper-cased symbol and `mint_address = none` —
resolution failure alone never drops a token. -/
theorem c9_unresolved_token_never_dropped (st : ParserState) (limit : Nat)
    (use_cache force_refresh : Bool) (env : FetchEnv) (i : Nat)
    (hbp : (use_cache && is_cache_valid st env.now && !force_refresh) = false)
    (hi : i < env.market_data.length)
    (hnone : dict_get (get_mint_addresses_from_birdeye env.birdeye env.market_data)
        (py_upper (env.market_data.getD i default).symbol) = none) :
    (get_top_tokens st limit use_cache force_refresh env).1.length =
      env.market_data.length ∧
    ((get_top_tokens st limit use_cache force_refresh env).1.getD i default).symbol =
      py_upper (env.market_data.getD i default).symbol ∧
    ((get_top_tokens st limit use_cache force_refresh env).1.getD i default).mint_address =
      none := by
  have hmt : env.market_data.isEmpty = false := by
    cases hm : env.market_data with
    | nil =>
      rw [hm] at hi
      simp at hi
    | cons a l => rfl
  have h1 : (get_top_tokens st limit use_cache force_refresh env).1 =
      parse_tokens_from
        (dict_get (get_mint_addresses_from_birdeye env.birdeye env.market_data)) 1
        env.market_data := by
    cases use_cache with
    | false => rw [get_top_tokens_nocache st limit force_refresh env hmt]
    | true => rw [get_top_tokens_write st limit force_refresh env hbp hmt]
  rw [h1, parse_tokens_from_length, parse_tokens_from_getD _ 1 i env.market_data hi]
  refine ⟨rfl, ?_, ?_⟩
  · simp [parse_token_data_with_mint]
  · have hnone2 := hnone
    simp only [List.getD_eq_getElem?_getD] at hnone2
    simp [parse_token_data_with_mint, hnone2]

/-- Witness for C9: the single fetched entry with symbol `zzz` resolves
to no mint address (no API key, not in the static table) yet appears in
the snapshot with `mint_address = none`. -/
theorem c9_unresolved_token_never_dropped_witness :
    (get_top_tokens fresh_state 100 true true sample_env).1.length = 1 ∧
    ((get_top_tokens fresh_state 100 true true sample_env).1.getD 0 default).mint_address =
      none := by
  have h := c9_unresolved_token_never_dropped fresh_state 100 true true sample_env 0
    (by simp) (by simp [sample_env]) (by decide)
  refine ⟨?_, h.2.2⟩
  rw [h.1]
  rfl
